import Mathlib

/-!
Formal model of the Miraikun video-gallery generation workflow
(`src/App.tsx` and the generation form in `src/components`), as a shallow
embedding.  The external generative service, the binary fetch layer and the
id generator are modelled by an explicit environment (`Env`); the
asynchronous pipeline `generateVideo` and the two controller handlers
`handleGenerateNewVideo` / `handleSaveEdit` are translated function by
function from the source.  A pipeline run that never settles (the polling
loop runs forever) is represented by `none`.
-/

namespace Miraikun

/-- Decidable equality for `Except`, so that concrete pipeline outcomes can
be evaluated by `decide`. -/
instance {ε α : Type} [DecidableEq ε] [DecidableEq α] : DecidableEq (Except ε α) := fun x y =>
  match x, y with
  | Except.ok a, Except.ok b =>
    if h : a = b then isTrue (by rw [h]) else isFalse (fun hh => by cases hh; exact h rfl)
  | Except.error a, Except.error b =>
    if h : a = b then isTrue (by rw [h]) else isFalse (fun hh => by cases hh; exact h rfl)
  | Except.ok _, Except.error _ => isFalse (fun hh => by cases hh)
  | Except.error _, Except.ok _ => isFalse (fun hh => by cases hh)

/-- JS `String.prototype.split` restricted to a one-character separator,
on the character list of a string. -/
def jsSplitChar (sep : Char) : List Char → List (List Char)
  | [] => [[]]
  | c :: rest =>
    match jsSplitChar sep rest with
    | [] => [[]]
    | g :: gs => if c = sep then [] :: g :: gs else (c :: g) :: gs

/-- JS `s.split(sep)` for a one-character separator. -/
def jsSplit (sep : Char) (s : String) : List String :=
  (jsSplitChar sep s.data).map String.mk

/-- JS `String.prototype.trim`: strip whitespace from both ends. -/
def jsTrim (s : String) : String :=
  String.mk ((s.data.dropWhile Char.isWhitespace).reverse.dropWhile Char.isWhitespace).reverse

/-- The standard base64 alphabet. -/
def base64Alphabet : List Char :=
  "ABCDEFGHIJKLMNOPQRSTUVWXYZabcdefghijklmnopqrstuvwxyz0123456789+/".data

/-- Character `n` (0..63) of the base64 alphabet. -/
def b64Char (n : Nat) : Char := base64Alphabet.getD n 'A'

/-- RFC 4648 base64 encoding of a byte sequence (bytes as `Nat` values),
as produced by the browser in a `data:` URL. -/
def base64Encode : List Nat → String
  | [] => ""
  | [a] =>
    String.mk [b64Char (a / 4), b64Char (a % 4 * 16), '=', '=']
  | [a, b] =>
    String.mk [b64Char (a / 4), b64Char (a % 4 * 16 + b / 16), b64Char (b % 16 * 4), '=']
  | a :: b :: c :: rest =>
    String.mk [b64Char (a / 4), b64Char (a % 4 * 16 + b / 16),
               b64Char (b % 16 * 4 + c / 64), b64Char (c % 64)] ++ base64Encode rest

/-- Hexadecimal value of a character, if any. -/
def hexVal (c : Char) : Option Nat :=
  if '0' ≤ c ∧ c ≤ '9' then some (c.toNat - '0'.toNat)
  else if 'a' ≤ c ∧ c ≤ 'f' then some (c.toNat - 'a'.toNat + 10)
  else if 'A' ≤ c ∧ c ≤ 'F' then some (c.toNat - 'A'.toNat + 10)
  else none

/-- Byte-level percent decoding, modelling the JS `decodeURIComponent`
applied to the asset URI (multi-byte UTF-8 sequences are decoded byte by
byte; malformed escapes are left in place). -/
def decodePercent : List Char → List Char
  | '%' :: h1 :: h2 :: rest =>
    match hexVal h1, hexVal h2 with
    | some a, some b => Char.ofNat (16 * a + b) :: decodePercent rest
    | _, _ => '%' :: h1 :: h2 :: decodePercent rest
  | c :: rest => c :: decodePercent rest
  | [] => []

/-- JS `decodeURIComponent` on a string (byte-level model). -/
def decodeUriComponent (s : String) : String := String.mk (decodePercent s.data)

/-- A binary blob: its media type (as reported by the HTTP layer) and its
bytes. -/
structure Blob where
  mime : String
  bytes : List Nat
  deriving DecidableEq

/-- The browser `FileReader.readAsDataURL` result for a blob. -/
def readAsDataURL (blob : Blob) : String :=
  "data:" ++ blob.mime ++ ";base64," ++ base64Encode blob.bytes

/-- `bloblToBase64` from `src/App.tsx`: read the blob as a data URL and keep
`url.split(',')[1]`, i.e. the bare base64 payload after the first comma
(the `data:<mime>;base64` tag is stripped). -/
def bloblToBase64 (blob : Blob) : String :=
  (jsSplit ',' (readAsDataURL blob)).getD 1 ""

/-- The two aspect-ratio values accepted by the app (the TS literal type
`'16:9' | '9:16'`). -/
inductive AspectRatio where
  | r16_9
  | r9_16
  deriving DecidableEq

/-- The optional reference-image argument handed to the pipeline:
`{base64: string; mimeType: string}`. -/
structure ImagePayload where
  base64 : String
  mimeType : String
  deriving DecidableEq

/-- The `image` field of a submission:
`{imageBytes: ..., mimeType: ...}`. -/
structure ImageField where
  imageBytes : String
  mimeType : String
  deriving DecidableEq

/-- The `config` block of a submission: `{numberOfVideos, aspectRatio}`. -/
structure VideosConfig where
  numberOfVideos : Nat
  aspectRatio : AspectRatio
  deriving DecidableEq

/-- The request object passed to `ai.models.generateVideos` (lines 43-56 of
`src/App.tsx`).  `image = none` models the JS conditional spread
`...(image && {image: {...}})`, under which the `image` key is absent from
the object (the code never produces a null or empty placeholder there). -/
structure GenerateVideosParams where
  model : String
  prompt : String
  image : Option ImageField
  config : VideosConfig
  deriving DecidableEq

/-- `generatedVideo.video`: carries the retrieval `uri`. -/
structure VideoFile where
  uri : String
  deriving DecidableEq

/-- One element of `operation.response.generatedVideos`. -/
structure GeneratedVideo where
  video : VideoFile
  deriving DecidableEq

/-- `operation.response`: present only with a terminal operation;
`generatedVideos` may be absent (`undefined`) or any list. -/
structure OperationResponse where
  generatedVideos : Option (List GeneratedVideo)
  deriving DecidableEq

/-- A service operation handle as returned by submission and by each status
query: the `done` flag and the optional `response`. -/
structure Operation where
  done : Bool
  response : Option OperationResponse
  deriving DecidableEq

/-- An HTTP response to a binary fetch: `ok`, `status`, `statusText` and
the body blob. -/
structure FetchResponse where
  ok : Bool
  status : Nat
  statusText : String
  blob : Blob
  deriving DecidableEq

/-- The distinct failure exits of the pipeline, one constructor per `throw`
site or rejected await in `generateVideo` (`src/App.tsx` lines 37-86).  In
the source they are all `Error` values distinguished only by message
(`GenError.message` below); the constructors record where each arises. -/
inductive GenError where
  | submit (msg : String)
  | poll (msg : String)
  | emptyResult
  | fetchReject (msg : String)
  | fetchFailed (status : Nat) (statusText : String)
  deriving DecidableEq

/-- The `Error` message carried by each failure exit, as written in the
source (`'No videos generated'`, ``Failed to fetch video: ...``); rejected
awaits propagate the collaborator's own message. -/
def GenError.message : GenError → String
  | .submit msg => msg
  | .poll msg => msg
  | .emptyResult => "No videos generated"
  | .fetchReject msg => msg
  | .fetchFailed status statusText =>
    "Failed to fetch video: " ++ toString status ++ " " ++ statusText

/-- The environment: the behavior of every external collaborator consulted
by the pipeline.  `generateVideos` is the submission call (it may reject);
`polls` scripts the successive results of `ai.operations.getVideosOperation`
(each may reject); an exhausted script with no terminal operation models a
service that never reports terminal status.  `fetch` is the binary HTTP
fetch; `apiKey` is `process.env.API_KEY`; `newId` is the value produced by
`self.crypto.randomUUID()`. -/
structure Env where
  generateVideos : GenerateVideosParams → Except String Operation
  polls : List (Except String Operation)
  fetch : String → Except String FetchResponse
  apiKey : String
  newId : String

/-- The model name constant `VEO_MODEL_NAME`. -/
def VEO_MODEL_NAME : String := "veo-2.0-generate-001"

/-- The request object built at the `ai.models.generateVideos` call site
(lines 43-56): model name, prompt, conditionally-spread image field, and
config block.  In the source `numberOfVideos` is a defaulted parameter that
every caller leaves at 1. -/
def submitParams (prompt : String) (aspectRatio : AspectRatio)
    (image : Option ImagePayload) (numberOfVideos : Nat) : GenerateVideosParams :=
  { model := VEO_MODEL_NAME
    prompt := prompt
    image := image.map fun i => { imageBytes := i.base64, mimeType := i.mimeType }
    config := { numberOfVideos := numberOfVideos, aspectRatio := aspectRatio } }

/-- The `while (!operation.done)` loop of lines 58-62: starting from the
operation returned by submission, repeatedly await the next status-query
result.  Returns the operation the loop exited on (or the rejection of a
poll) together with the number of `getVideosOperation` calls issued;
`none` means the scripted service never reported terminal status (the loop
runs forever). -/
def pollLoop (op : Operation) (polls : List (Except String Operation)) (n : Nat) :
    Option (Except String Operation × Nat) :=
  if op.done then some (Except.ok op, n)
  else
    match polls with
    | [] => none
    | Except.error msg :: _ => some (Except.error msg, n + 1)
    | Except.ok op' :: rest => pollLoop op' rest (n + 1)

/-- The retrieval URL for one generated video (line 72-73): percent-decode
the reference URI and append the access credential as a query parameter. -/
def videoFetchUrl (apiKey : String) (gv : GeneratedVideo) : String :=
  decodeUriComponent gv.video.uri ++ "&key=" ++ apiKey

/-- The per-asset body of the `Promise.all` map (lines 71-81): fetch the
retrieval URL; a rejected fetch propagates; a non-ok response throws the
`Failed to fetch video` error carrying the HTTP status; otherwise the body
blob is encoded with `bloblToBase64`. -/
def fetchOne (env : Env) (gv : GeneratedVideo) : Except GenError String :=
  match env.fetch (videoFetchUrl env.apiKey gv) with
  | Except.error msg => Except.error (GenError.fetchReject msg)
  | Except.ok res =>
    if res.ok then Except.ok (bloblToBase64 res.blob)
    else Except.error (GenError.fetchFailed res.status res.statusText)

/-- `Promise.all` over the per-asset outcomes: the list of payloads when
all succeed, otherwise a failure (the first in sequence order; the source's
`Promise.all` rejects with the temporally first rejection). -/
def collectResults : List (Except GenError String) → Except GenError (List String)
  | [] => Except.ok []
  | Except.error e :: _ => Except.error e
  | Except.ok s :: rest => (collectResults rest).map fun l => s :: l

/-- The observable trace of one `generateVideo` run: the submitted request,
the number of status queries issued, the operation the polling loop exited
on (when it did), the retrieval URLs for which fetches were issued, and the
settled outcome (`none` when the run never settles). -/
structure GenRun where
  submitted : GenerateVideosParams
  pollCount : Nat
  finalOp : Option Operation
  fetched : List String
  result : Option (Except GenError (List String))

/-- `generateVideo` from `src/App.tsx` lines 37-86: submit, poll until
`done`, then — when `operation.response` is present — extract
`generatedVideos`, throwing `'No videos generated'` when the list is absent
or empty (the absent-response branch of line 83-85 throws the same error),
and otherwise fetch and encode every generated video. -/
def generateVideo (env : Env) (prompt : String) (aspectRatio : AspectRatio)
    (image : Option ImagePayload) (numberOfVideos : Nat) : GenRun :=
  let params := submitParams prompt aspectRatio image numberOfVideos
  match env.generateVideos params with
  | Except.error msg =>
    ⟨params, 0, none, [], some (Except.error (GenError.submit msg))⟩
  | Except.ok op0 =>
    match pollLoop op0 env.polls 0 with
    | none => ⟨params, env.polls.length, none, [], none⟩
    | some (Except.error msg, n) =>
      ⟨params, n, none, [], some (Except.error (GenError.poll msg))⟩
    | some (Except.ok op, n) =>
      match op.response with
      | none => ⟨params, n, some op, [], some (Except.error GenError.emptyResult)⟩
      | some resp =>
        match resp.generatedVideos with
        | none => ⟨params, n, some op, [], some (Except.error GenError.emptyResult)⟩
        | some [] => ⟨params, n, some op, [], some (Except.error GenError.emptyResult)⟩
        | some (v :: vs) =>
          ⟨params, n, some op,
           (v :: vs).map (videoFetchUrl env.apiKey),
           some (collectResults ((v :: vs).map (fetchOne env)))⟩

/-- A gallery entry (`Video` from `types`, as used in `src/App.tsx`). -/
structure Video where
  id : String
  title : String
  description : String
  videoUrl : String
  deriving DecidableEq

/-- The state held by the `App` component (`useState` hooks, lines 93-101):
the gallery list, the player overlay, the editor page, the generate form,
the progress page flag and message, and the error overlay message pair. -/
structure AppState where
  videos : List Video
  playingVideo : Option Video
  editingVideo : Option Video
  isGeneratingNewVideo : Bool
  isSaving : Bool
  savingMessage : String
  generationError : Option (List String)
  deriving DecidableEq

/-- The fixed two-line error message installed by both catch blocks
(lines 167-170 and 208-211). -/
def errorMessages : List String :=
  ["Video generation failed.",
   "This may be due to a billing issue. Please ensure your Cloud Project is on a paid tier to use this feature."]

/-- The title built on the success path of `handleGenerateNewVideo`
(lines 156-158): `Generated: ` then the prompt truncated to 30 characters,
with an ellipsis when the prompt is longer. -/
def truncatedTitle (prompt : String) : String :=
  "Generated: " ++ String.mk (prompt.data.take 30) ++
    (if prompt.data.length > 30 then "..." else "")

/-- `handleGenerateNewVideo` (lines 130-174): leave the generate form, show
the progress page, clear any error, run the pipeline; on success build the
new `Video` (tagging the first payload as a `video/mp4` data URL), prepend
it to the gallery and open the player on it; on any thrown error (including
the handler's own `Video generation returned no data.` throw on an empty
payload list) install the fixed error message; the `finally` block clears
`isSaving` on every settled path.  `none` is the run that never settles. -/
def handleGenerateNewVideo (env : Env) (prompt : String) (aspectRatio : AspectRatio)
    (image : Option ImagePayload) (s : AppState) : Option AppState :=
  let s1 : AppState :=
    { s with isGeneratingNewVideo := false
             savingMessage := "Creating your video..."
             isSaving := true
             generationError := none }
  match (generateVideo env prompt aspectRatio image 1).result with
  | none => none
  | some (Except.error _) =>
    some { s1 with generationError := some errorMessages, isSaving := false }
  | some (Except.ok []) =>
    some { s1 with generationError := some errorMessages, isSaving := false }
  | some (Except.ok (videoSrc :: _)) =>
    let src := "data:video/mp4;base64," ++ videoSrc
    let newVideo : Video :=
      { id := env.newId
        title := truncatedTitle prompt
        description := prompt
        videoUrl := src }
    some { s1 with videos := newVideo :: s1.videos
                   playingVideo := some newVideo
                   isSaving := false }

/-- `handleSaveEdit` (lines 176-215): close the editor, show the progress
page with the remix message, and rerun the pipeline on the original video's
description with aspect ratio `16:9` and no reference image; on success the
new `Video` takes the original's description and a `Remix of "..."` title,
is prepended and played; errors and the `finally` block behave exactly as
in `handleGenerateNewVideo`. -/
def handleSaveEdit (env : Env) (originalVideo : Video) (s : AppState) : Option AppState :=
  let s1 : AppState :=
    { s with editingVideo := none
             savingMessage := "Creating your remix..."
             isSaving := true
             generationError := none }
  match (generateVideo env originalVideo.description AspectRatio.r16_9 none 1).result with
  | none => none
  | some (Except.error _) =>
    some { s1 with generationError := some errorMessages, isSaving := false }
  | some (Except.ok []) =>
    some { s1 with generationError := some errorMessages, isSaving := false }
  | some (Except.ok (videoSrc :: _)) =>
    let src := "data:video/mp4;base64," ++ videoSrc
    let newVideo : Video :=
      { id := env.newId
        title := "Remix of \"" ++ originalVideo.title ++ "\""
        description := originalVideo.description
        videoUrl := src }
    some { s1 with videos := newVideo :: s1.videos
                   playingVideo := some newVideo
                   isSaving := false }

/-- The `onClose` handler of the error overlay (line 272):
`setGenerationError(null)`. -/
def errorModalOnClose (s : AppState) : AppState :=
  { s with generationError := none }

/-- `handleGenerate` from the generate form (`GenerateVideoPage`): invoke
`onGenerate` with the untrimmed prompt, the chosen aspect ratio and the
optional image only when the trimmed prompt is truthy (non-empty); with an
empty trimmed prompt nothing happens at all. -/
def handleGenerate (prompt : String) (aspectRatio : AspectRatio)
    (image : Option ImagePayload) : Option (String × AspectRatio × Option ImagePayload) :=
  if jsTrim prompt ≠ "" then some (prompt, aspectRatio, image) else none

/-- A terminal operation carrying the given generated videos. -/
def opReady (vids : List GeneratedVideo) : Operation :=
  { done := true, response := some { generatedVideos := some vids } }

/-- A successful HTTP response with an mp4 body of the given bytes. -/
def okFetch (bytes : List Nat) : FetchResponse :=
  { ok := true, status := 200, statusText := "OK"
    blob := { mime := "video/mp4", bytes := bytes } }

/-- A service that reports terminal status on submission itself, with one
generated video, and a fetch layer that always succeeds. -/
def envDoneNow : Env :=
  { generateVideos := fun _ => Except.ok (opReady [{ video := { uri := "u1" } }])
    polls := []
    fetch := fun _ => Except.ok (okFetch [0, 0, 0])
    apiKey := "k"
    newId := "vid-1" }

/-- A service that rejects the submission. -/
def envErr : Env :=
  { generateVideos := fun _ => Except.error "service unavailable"
    polls := []
    fetch := fun _ => Except.error "no fetch"
    apiKey := "k"
    newId := "vid-2" }

/-- A service whose job terminates with zero generated videos. -/
def envEmpty : Env :=
  { generateVideos := fun _ =>
      Except.ok { done := true, response := some { generatedVideos := some [] } }
    polls := []
    fetch := fun _ => Except.error "no fetch"
    apiKey := "k"
    newId := "vid-3" }

/-- A service whose job terminates with two generated videos. -/
def envTwo : Env :=
  { generateVideos := fun _ =>
      Except.ok (opReady [{ video := { uri := "u1" } }, { video := { uri := "u2" } }])
    polls := []
    fetch := fun _ => Except.ok (okFetch [0, 0, 0])
    apiKey := "k"
    newId := "vid-4" }

/-- A service that is pending at submission and terminal on the first
status query. -/
def envPolled : Env :=
  { generateVideos := fun _ => Except.ok { done := false, response := none }
    polls := [Except.ok (opReady [{ video := { uri := "u1" } }])]
    fetch := fun _ => Except.ok (okFetch [0, 0, 0])
    apiKey := "k"
    newId := "vid-5" }

/-- A service whose asset fetch is denied with HTTP 403. -/
def envFetch403 : Env :=
  { generateVideos := fun _ => Except.ok (opReady [{ video := { uri := "u1" } }])
    polls := []
    fetch := fun _ =>
      Except.ok { ok := false, status := 403, statusText := "Forbidden"
                  blob := { mime := "", bytes := [] } }
    apiKey := "k"
    newId := "vid-6" }

/-- A concrete app state: empty gallery, generate form open. -/
def st0 : AppState :=
  { videos := []
    playingVideo := none
    editingVideo := none
    isGeneratingNewVideo := true
    isSaving := false
    savingMessage := "m"
    generationError := none }

/-- A concrete gallery entry. -/
def vid0 : Video :=
  { id := "v0", title := "t0", description := "d0", videoUrl := "url0" }

/-- A concrete app state showing the error overlay. -/
def stErr : AppState := { st0 with generationError := some errorMessages }

/-- The single generated video used by the fetch-failure scenario. -/
def gvU1 : GeneratedVideo := { video := { uri := "u1" } }

/-- The denied HTTP response used by the fetch-failure scenario. -/
def resp403 : FetchResponse :=
  { ok := false, status := 403, statusText := "Forbidden"
    blob := { mime := "", bytes := [] } }

/-- The state produced by a failing generation run started from `st0`. -/
def stAfterErr : AppState :=
  { st0 with isGeneratingNewVideo := false
             savingMessage := "Creating your video..."
             isSaving := false
             generationError := some errorMessages }


theorem pollLoop_ok_done (polls : List (Except String Operation)) :
    ∀ op n op' m, pollLoop op polls n = some (Except.ok op', m) → op'.done = true := by
  induction polls with
  | nil =>
    intro op n op' m h
    rw [pollLoop.eq_def] at h
    cases hop : op.done with
    | true =>
      simp [hop] at h
      obtain ⟨h1, h2⟩ := h
      rw [← h1]
      exact hop
    | false => simp [hop] at h
  | cons p rest ih =>
    intro op n op' m h
    rw [pollLoop.eq_def] at h
    cases hop : op.done with
    | true =>
      simp [hop] at h
      obtain ⟨h1, h2⟩ := h
      rw [← h1]
      exact hop
    | false =>
      simp [hop] at h
      cases p with
      | error msg => simp at h
      | ok op2 => exact ih op2 (n + 1) op' m h

theorem pollLoop_le (polls : List (Except String Operation)) :
    ∀ op n r m, pollLoop op polls n = some (r, m) → n ≤ m := by
  induction polls with
  | nil =>
    intro op n r m h
    rw [pollLoop.eq_def] at h
    cases hop : op.done with
    | true =>
      simp [hop] at h
      obtain ⟨h1, h2⟩ := h
      omega
    | false => simp [hop] at h
  | cons p rest ih =>
    intro op n r m h
    rw [pollLoop.eq_def] at h
    cases hop : op.done with
    | true =>
      simp [hop] at h
      obtain ⟨h1, h2⟩ := h
      omega
    | false =>
      simp [hop] at h
      cases p with
      | error msg =>
        simp at h
        obtain ⟨h1, h2⟩ := h
        omega
      | ok op2 => exact Nat.le_of_succ_le (ih op2 (n + 1) r m h)

theorem pollLoop_notDone_one (op : Operation) (polls : List (Except String Operation))
    (r : Except String Operation) (m : Nat) (hop : op.done = false)
    (h : pollLoop op polls 0 = some (r, m)) : 1 ≤ m := by
  rw [pollLoop.eq_def] at h
  simp [hop] at h
  cases polls with
  | nil => simp at h
  | cons p rest =>
    cases p with
    | error msg =>
      simp at h
      obtain ⟨h1, h2⟩ := h
      omega
    | ok op2 => exact pollLoop_le rest op2 1 r m h

theorem generateVideo_submitted (env : Env) (prompt : String) (ratio : AspectRatio)
    (image : Option ImagePayload) (nv : Nat) :
    (generateVideo env prompt ratio image nv).submitted = submitParams prompt ratio image nv := by
  rw [generateVideo]
  repeat' split
  all_goals rfl


theorem collectResults_ok_mem (l : List (Except GenError String)) :
    ∀ xs, collectResults l = Except.ok xs →
      xs.length = l.length ∧ ∀ x ∈ xs, Except.ok x ∈ l := by
  induction l with
  | nil =>
    intro xs h
    simp [collectResults] at h
    subst h
    simp
  | cons e rest ih =>
    intro xs h
    cases e with
    | error e0 => simp [collectResults] at h
    | ok s =>
      rw [collectResults] at h
      cases hc : collectResults rest with
      | error e0 => rw [hc] at h; simp [Except.map] at h
      | ok ys =>
        rw [hc] at h
        simp [Except.map] at h
        obtain ⟨hl, hmem⟩ := ih ys hc
        constructor
        · rw [← h]; simp [hl]
        · intro x hx
          rw [← h] at hx
          cases hx with
          | head => exact List.mem_cons_self _ _
          | tail _ hx2 => exact List.mem_cons_of_mem _ (hmem x hx2)

theorem collectResults_all_ok (l : List (Except GenError String))
    (h : ∀ x ∈ l, ∃ s, x = Except.ok s) :
    ∃ xs, collectResults l = Except.ok xs ∧ xs.length = l.length := by
  induction l with
  | nil => exact ⟨[], rfl, rfl⟩
  | cons e rest ih =>
    obtain ⟨s, hs⟩ := h e (List.mem_cons_self _ _)
    obtain ⟨xs, hxs, hlen⟩ := ih fun x hx => h x (List.mem_cons_of_mem _ hx)
    subst hs
    refine ⟨s :: xs, ?_, by simp [hlen]⟩
    rw [collectResults, hxs]
    rfl

theorem collectResults_has_error (l : List (Except GenError String))
    (h : ∃ e, Except.error e ∈ l) :
    ∃ e, collectResults l = Except.error e ∧ Except.error e ∈ l := by
  induction l with
  | nil => simp at h
  | cons x rest ih =>
    cases x with
    | error e0 => exact ⟨e0, rfl, List.mem_cons_self _ _⟩
    | ok s =>
      obtain ⟨e, he⟩ := h
      have he2 : Except.error e ∈ rest := by
        cases he with
        | tail _ h2 => exact h2
      obtain ⟨e2, he3, hmem⟩ := ih ⟨e, he2⟩
      refine ⟨e2, ?_, List.mem_cons_of_mem _ hmem⟩
      rw [collectResults, he3]
      rfl


theorem generateVideo_materialize (env : Env) (prompt : String) (ratio : AspectRatio)
    (image : Option ImagePayload) (op0 op : Operation) (n : Nat)
    (v : GeneratedVideo) (vs : List GeneratedVideo)
    (hsub : env.generateVideos (submitParams prompt ratio image 1) = Except.ok op0)
    (hpoll : pollLoop op0 env.polls 0 = some (Except.ok op, n))
    (hresp : op.response = some { generatedVideos := some (v :: vs) }) :
    (generateVideo env prompt ratio image 1).result =
      some (collectResults ((v :: vs).map (fetchOne env))) ∧
    (generateVideo env prompt ratio image 1).fetched =
      (v :: vs).map (videoFetchUrl env.apiKey) := by
  rw [generateVideo]
  simp only [hsub, hpoll, hresp]
  exact ⟨trivial, trivial⟩

theorem generateVideo_finalOp_done (env : Env) (prompt : String) (ratio : AspectRatio)
    (image : Option ImagePayload) (nv : Nat) (op : Operation)
    (h : (generateVideo env prompt ratio image nv).finalOp = some op) : op.done = true := by
  cases hs : env.generateVideos (submitParams prompt ratio image nv) with
  | error msg => simp only [generateVideo, hs] at h; simp at h
  | ok op0 =>
    cases hp : pollLoop op0 env.polls 0 with
    | none => simp only [generateVideo, hs, hp] at h; simp at h
    | some pr =>
      obtain ⟨r, n⟩ := pr
      cases r with
      | error msg => simp only [generateVideo, hs, hp] at h; simp at h
      | ok opT =>
        have hdone := pollLoop_ok_done env.polls op0 0 opT n hp
        cases hresp : opT.response with
        | none =>
          simp only [generateVideo, hs, hp, hresp] at h
          simp at h
          rw [← h]
          exact hdone
        | some resp =>
          cases hg : resp.generatedVideos with
          | none =>
            simp only [generateVideo, hs, hp, hresp, hg] at h
            simp at h
            rw [← h]
            exact hdone
          | some vids =>
            cases vids with
            | nil =>
              simp only [generateVideo, hs, hp, hresp, hg] at h
              simp at h
              rw [← h]
              exact hdone
            | cons va vb =>
              simp only [generateVideo, hs, hp, hresp, hg] at h
              simp at h
              rw [← h]
              exact hdone

theorem generateVideo_ok_finalOp (env : Env) (prompt : String) (ratio : AspectRatio)
    (image : Option ImagePayload) (nv : Nat) (xs : List String)
    (h : (generateVideo env prompt ratio image nv).result = some (Except.ok xs)) :
    ∃ op, (generateVideo env prompt ratio image nv).finalOp = some op ∧ op.done = true := by
  cases hs : env.generateVideos (submitParams prompt ratio image nv) with
  | error msg => simp only [generateVideo, hs] at h; simp at h
  | ok op0 =>
    cases hp : pollLoop op0 env.polls 0 with
    | none => simp only [generateVideo, hs, hp] at h; simp at h
    | some pr =>
      obtain ⟨r, n⟩ := pr
      cases r with
      | error msg => simp only [generateVideo, hs, hp] at h; simp at h
      | ok opT =>
        have hdone := pollLoop_ok_done env.polls op0 0 opT n hp
        refine ⟨opT, ?_, hdone⟩
        cases hresp : opT.response with
        | none => simp only [generateVideo, hs, hp, hresp] at h; simp at h
        | some resp =>
          cases hg : resp.generatedVideos with
          | none => simp only [generateVideo, hs, hp, hresp, hg] at h; simp at h
          | some vids =>
            cases vids with
            | nil => simp only [generateVideo, hs, hp, hresp, hg] at h; simp at h
            | cons va vb => simp only [generateVideo, hs, hp, hresp, hg]

theorem generateVideo_pollCount (env : Env) (prompt : String) (ratio : AspectRatio)
    (image : Option ImagePayload) (nv : Nat) (op0 : Operation)
    (r : Except String Operation) (m : Nat)
    (hs : env.generateVideos (submitParams prompt ratio image nv) = Except.ok op0)
    (hp : pollLoop op0 env.polls 0 = some (r, m)) :
    (generateVideo env prompt ratio image nv).pollCount = m := by
  cases r with
  | error msg => simp only [generateVideo, hs, hp]
  | ok opT =>
    cases hresp : opT.response with
    | none => simp only [generateVideo, hs, hp, hresp]
    | some resp =>
      cases hg : resp.generatedVideos with
      | none => simp only [generateVideo, hs, hp, hresp, hg]
      | some vids =>
        cases vids with
        | nil => simp only [generateVideo, hs, hp, hresp, hg]
        | cons va vb => simp only [generateVideo, hs, hp, hresp, hg]

theorem generateVideo_empty (env : Env) (prompt : String) (ratio : AspectRatio)
    (image : Option ImagePayload) (op0 op : Operation) (n : Nat)
    (hsub : env.generateVideos (submitParams prompt ratio image 1) = Except.ok op0)
    (hpoll : pollLoop op0 env.polls 0 = some (Except.ok op, n))
    (hempty : op.response = none ∨ op.response = some ⟨none⟩ ∨ op.response = some ⟨some []⟩) :
    (generateVideo env prompt ratio image 1).result = some (Except.error GenError.emptyResult) := by
  rcases hempty with h1 | h1 | h1 <;> simp only [generateVideo, hsub, hpoll, h1]

/-- C1: on every successful run of the generation pipeline exactly one
`Video` is prepended to the gallery (so a second successful run yields the
newest-first order V2, V1), its `description` equals the submitted prompt,
its `title` is the prompt truncated to a fixed length with the `Generated:`
prefix, its `videoUrl` is the data-URL encoding of the first materialized
payload, and the player overlay is opened on the new `Video`. -/
theorem C1_success_prepends_one_video (env env2 : Env) (prompt prompt2 : String)
    (ratio ratio2 : AspectRatio) (image image2 : Option ImagePayload) (s : AppState)
    (b : String) (bs : List String)
    (h : (generateVideo env prompt ratio image 1).result = some (Except.ok (b :: bs))) :
    ∃ v s', handleGenerateNewVideo env prompt ratio image s = some s' ∧
      s'.videos = v :: s.videos ∧
      v.description = prompt ∧
      v.title = truncatedTitle prompt ∧
      v.videoUrl = "data:video/mp4;base64," ++ b ∧
      s'.playingVideo = some v ∧
      (∀ b2 bs2 s2,
        (generateVideo env2 prompt2 ratio2 image2 1).result = some (Except.ok (b2 :: bs2)) →
        handleGenerateNewVideo env2 prompt2 ratio2 image2 s' = some s2 →
        ∃ v2, s2.videos = v2 :: v :: s.videos) := by
  rw [handleGenerateNewVideo]
  simp only [h]
  refine ⟨_, _, rfl, rfl, rfl, rfl, rfl, rfl, ?_⟩
  intro b2 bs2 s2 h2 hrun2
  rw [handleGenerateNewVideo] at hrun2
  simp only [h2] at hrun2
  cases hrun2
  exact ⟨_, rfl⟩

/-- C1 witness: a concrete successful run with prompt `p` on the empty
gallery. -/
theorem C1_witness :
    ∃ v s', handleGenerateNewVideo envDoneNow "p" AspectRatio.r16_9 none st0 = some s' ∧
      s'.videos = v :: st0.videos ∧
      v.description = "p" ∧
      v.title = truncatedTitle "p" ∧
      v.videoUrl = "data:video/mp4;base64," ++ "AAAA" ∧
      s'.playingVideo = some v ∧
      (∀ b2 bs2 s2,
        (generateVideo envDoneNow "p" AspectRatio.r16_9 none 1).result =
          some (Except.ok (b2 :: bs2)) →
        handleGenerateNewVideo envDoneNow "p" AspectRatio.r16_9 none s' = some s2 →
        ∃ v2, s2.videos = v2 :: v :: st0.videos) :=
  C1_success_prepends_one_video envDoneNow envDoneNow "p" "p" AspectRatio.r16_9 AspectRatio.r16_9
    none none st0 "AAAA" [] (by decide)

/-- C2: on every settled failing run of the pipeline — whatever stage
failed — the gallery is unchanged, the error overlay is shown, and the
progress state is exited; moreover `isSaving` is false after every settled
run of either handler (the finally-block guarantee). -/
theorem C2_failure_gallery_unchanged_progress_exited (env : Env) (prompt : String)
    (ratio : AspectRatio) (image : Option ImagePayload) (v : Video) (s : AppState) :
    (∀ e, (generateVideo env prompt ratio image 1).result = some (Except.error e) →
      ∃ s', handleGenerateNewVideo env prompt ratio image s = some s' ∧
        s'.videos = s.videos ∧ s'.generationError = some errorMessages ∧
        s'.isSaving = false) ∧
    (∀ e, (generateVideo env v.description AspectRatio.r16_9 none 1).result =
        some (Except.error e) →
      ∃ s', handleSaveEdit env v s = some s' ∧
        s'.videos = s.videos ∧ s'.generationError = some errorMessages ∧
        s'.isSaving = false) ∧
    (∀ s', handleGenerateNewVideo env prompt ratio image s = some s' →
      s'.isSaving = false) ∧
    (∀ s', handleSaveEdit env v s = some s' → s'.isSaving = false) := by
  refine ⟨?_, ?_, ?_, ?_⟩
  · intro e he
    rw [handleGenerateNewVideo]
    simp only [he]
    exact ⟨_, rfl, rfl, rfl, rfl⟩
  · intro e he
    rw [handleSaveEdit]
    simp only [he]
    exact ⟨_, rfl, rfl, rfl, rfl⟩
  · intro s' hs'
    rw [handleGenerateNewVideo] at hs'
    cases hres : (generateVideo env prompt ratio image 1).result with
    | none => simp only [hres] at hs'; exact Option.noConfusion hs'
    | some r =>
      simp only [hres] at hs'
      cases r with
      | error e => cases hs'; rfl
      | ok l =>
        cases l with
        | nil => cases hs'; rfl
        | cons x xs => cases hs'; rfl
  · intro s' hs'
    rw [handleSaveEdit] at hs'
    cases hres : (generateVideo env v.description AspectRatio.r16_9 none 1).result with
    | none => simp only [hres] at hs'; exact Option.noConfusion hs'
    | some r =>
      simp only [hres] at hs'
      cases r with
      | error e => cases hs'; rfl
      | ok l =>
        cases l with
        | nil => cases hs'; rfl
        | cons x xs => cases hs'; rfl

/-- C2 witness: a concrete failing run (rejected submission). -/
theorem C2_witness :
    ∃ s', handleGenerateNewVideo envErr "p" AspectRatio.r16_9 none st0 = some s' ∧
      s'.videos = st0.videos ∧ s'.generationError = some errorMessages ∧
      s'.isSaving = false :=
  (C2_failure_gallery_unchanged_progress_exited envErr "p" AspectRatio.r16_9 none vid0 st0).1
    (GenError.submit "service unavailable") (by decide)

/-- C3: every settled failing run of either handler installs the same fixed
two-line message (failure headline plus billing remediation hint),
independent of the error kind; a settled run never installs any other
message. -/
theorem C3_fixed_two_line_message (env : Env) (prompt : String) (ratio : AspectRatio)
    (image : Option ImagePayload) (v : Video) (s : AppState) :
    (∀ e s', (generateVideo env prompt ratio image 1).result = some (Except.error e) →
      handleGenerateNewVideo env prompt ratio image s = some s' →
      s'.generationError = some errorMessages) ∧
    (∀ e s', (generateVideo env v.description AspectRatio.r16_9 none 1).result =
        some (Except.error e) →
      handleSaveEdit env v s = some s' → s'.generationError = some errorMessages) ∧
    (∀ s', handleGenerateNewVideo env prompt ratio image s = some s' →
      s'.generationError = none ∨ s'.generationError = some errorMessages) ∧
    (∀ s', handleSaveEdit env v s = some s' →
      s'.generationError = none ∨ s'.generationError = some errorMessages) := by
  refine ⟨?_, ?_, ?_, ?_⟩
  · intro e s' he hrun
    rw [handleGenerateNewVideo] at hrun
    simp only [he] at hrun
    cases hrun
    rfl
  · intro e s' he hrun
    rw [handleSaveEdit] at hrun
    simp only [he] at hrun
    cases hrun
    rfl
  · intro s' hs'
    rw [handleGenerateNewVideo] at hs'
    cases hres : (generateVideo env prompt ratio image 1).result with
    | none => simp only [hres] at hs'; exact Option.noConfusion hs'
    | some r =>
      simp only [hres] at hs'
      cases r with
      | error e => cases hs'; exact Or.inr rfl
      | ok l =>
        cases l with
        | nil => cases hs'; exact Or.inr rfl
        | cons x xs => cases hs'; exact Or.inl rfl
  · intro s' hs'
    rw [handleSaveEdit] at hs'
    cases hres : (generateVideo env v.description AspectRatio.r16_9 none 1).result with
    | none => simp only [hres] at hs'; exact Option.noConfusion hs'
    | some r =>
      simp only [hres] at hs'
      cases r with
      | error e => cases hs'; exact Or.inr rfl
      | ok l =>
        cases l with
        | nil => cases hs'; exact Or.inr rfl
        | cons x xs => cases hs'; exact Or.inl rfl

/-- C3 witness: the concrete failing run installs exactly the fixed
message pair. -/
theorem C3_witness : stAfterErr.generationError = some errorMessages :=
  (C3_fixed_two_line_message envErr "p" AspectRatio.r16_9 none vid0 st0).1
    (GenError.submit "service unavailable") stAfterErr (by decide) (by decide)

/-- C4: whenever the submission succeeds and polling settles on a terminal
operation whose generated-video sequence is absent or empty, the pipeline
fails with the empty-result error, no `Video` is added to the gallery, the
error overlay is shown and the progress state is exited. -/
theorem C4_empty_result_error (env : Env) (prompt : String) (ratio : AspectRatio)
    (image : Option ImagePayload) (s : AppState) (op0 op : Operation) (n : Nat)
    (hsub : env.generateVideos (submitParams prompt ratio image 1) = Except.ok op0)
    (hpoll : pollLoop op0 env.polls 0 = some (Except.ok op, n))
    (hempty : op.response = none ∨ op.response = some ⟨none⟩ ∨ op.response = some ⟨some []⟩) :
    (generateVideo env prompt ratio image 1).result =
      some (Except.error GenError.emptyResult) ∧
    ∃ s', handleGenerateNewVideo env prompt ratio image s = some s' ∧
      s'.videos = s.videos ∧ s'.generationError = some errorMessages ∧
      s'.isSaving = false := by
  have hr := generateVideo_empty env prompt ratio image op0 op n hsub hpoll hempty
  refine ⟨hr, ?_⟩
  rw [handleGenerateNewVideo]
  simp only [hr]
  exact ⟨_, rfl, rfl, rfl, rfl⟩

/-- C4 witness: a job that terminates with zero generated videos. -/
theorem C4_witness :
    (generateVideo envEmpty "p" AspectRatio.r16_9 none 1).result =
      some (Except.error GenError.emptyResult) ∧
    ∃ s', handleGenerateNewVideo envEmpty "p" AspectRatio.r16_9 none st0 = some s' ∧
      s'.videos = st0.videos ∧ s'.generationError = some errorMessages ∧
      s'.isSaving = false :=
  C4_empty_result_error envEmpty "p" AspectRatio.r16_9 none st0
    { done := true, response := some { generatedVideos := some [] } }
    { done := true, response := some { generatedVideos := some [] } } 0
    (by decide) (by decide) (Or.inr (Or.inr rfl))

/-- C5 counterexample: the claim demands at least one status query on every
poll sequence, but when the submission itself returns a terminal operation
the loop body never runs: this successful run issues zero
`getVideosOperation` queries. -/
theorem C5_counterexample :
    (generateVideo envDoneNow "p" AspectRatio.r16_9 none 1).pollCount = 0 ∧
    (generateVideo envDoneNow "p" AspectRatio.r16_9 none 1).result =
      some (Except.ok ["AAAA"]) := by
  exact ⟨rfl, by decide⟩

/-- C5 (amended): the poller exits only on a terminal operation and never
surfaces success on a non-terminal one; it keeps querying while the
operation is non-terminal, so whenever the submitted operation is not yet
terminal and the loop settles, at least one status query was issued — but
when the submission already returns a terminal operation, zero further
queries are issued. -/
theorem C5_poller_terminal_only (env : Env) (prompt : String) (ratio : AspectRatio)
    (image : Option ImagePayload) :
    (∀ op, (generateVideo env prompt ratio image 1).finalOp = some op →
      op.done = true) ∧
    (∀ xs, (generateVideo env prompt ratio image 1).result = some (Except.ok xs) →
      ∃ op, (generateVideo env prompt ratio image 1).finalOp = some op ∧
        op.done = true) ∧
    (∀ op0 r m, env.generateVideos (submitParams prompt ratio image 1) = Except.ok op0 →
      op0.done = false → pollLoop op0 env.polls 0 = some (r, m) →
      1 ≤ (generateVideo env prompt ratio image 1).pollCount) := by
  refine ⟨?_, ?_, ?_⟩
  · intro op h
    exact generateVideo_finalOp_done env prompt ratio image 1 op h
  · intro xs h
    exact generateVideo_ok_finalOp env prompt ratio image 1 xs h
  · intro op0 r m hs hnd hp
    rw [generateVideo_pollCount env prompt ratio image 1 op0 r m hs hp]
    exact pollLoop_notDone_one op0 env.polls r m hnd hp

/-- C5 witness: a job pending at submission and terminal on the first
status query issues at least one query. -/
theorem C5_witness :
    1 ≤ (generateVideo envPolled "p" AspectRatio.r16_9 none 1).pollCount :=
  (C5_poller_terminal_only envPolled "p" AspectRatio.r16_9 none).2.2
    { done := false, response := none }
    (Except.ok (opReady [{ video := { uri := "u1" } }])) 1
    (by decide) rfl (by decide)

/-- C6 counterexample: with two generated videos the pipeline succeeds and
every payload it yields is a bare base64 body — `AAAA` does not carry a
`data:` media-type tag, refuting that each binary payload is encoded as a
self-describing, media-type-tagged embeddable string. -/
theorem C6_counterexample :
    (generateVideo envTwo "p" AspectRatio.r16_9 none 1).result =
      some (Except.ok ["AAAA", "AAAA"]) ∧
    ("data:".data.isPrefixOf "AAAA".data) = false := by
  exact ⟨by decide, by decide⟩

/-- C6 (amended): every reference is fetched (a retrieval URL is issued for
each generated video, not only the first); when all fetches return
responses and any response is non-successful the pipeline fails with a
fetch error carrying that response's HTTP status; when all responses are
successful the pipeline yields one payload per reference, each being the
bare base64 body produced by the encoder for some fetched blob (the
media-type tag is stripped by the encoder and reattached downstream only to
the first payload). -/
theorem C6_all_fetched_fetch_error_status (env : Env) (prompt : String)
    (ratio : AspectRatio) (image : Option ImagePayload) (op0 op : Operation) (n : Nat)
    (v : GeneratedVideo) (vs : List GeneratedVideo)
    (hsub : env.generateVideos (submitParams prompt ratio image 1) = Except.ok op0)
    (hpoll : pollLoop op0 env.polls 0 = some (Except.ok op, n))
    (hresp : op.response = some { generatedVideos := some (v :: vs) }) :
    (generateVideo env prompt ratio image 1).fetched =
      (v :: vs).map (videoFetchUrl env.apiKey) ∧
    ((∀ gv ∈ v :: vs, ∃ res, env.fetch (videoFetchUrl env.apiKey gv) = Except.ok res) →
      (∃ gv ∈ v :: vs, ∃ res, env.fetch (videoFetchUrl env.apiKey gv) = Except.ok res ∧
        res.ok = false) →
      ∃ gv ∈ v :: vs, ∃ res, env.fetch (videoFetchUrl env.apiKey gv) = Except.ok res ∧
        res.ok = false ∧
        (generateVideo env prompt ratio image 1).result =
          some (Except.error (GenError.fetchFailed res.status res.statusText))) ∧
    ((∀ gv ∈ v :: vs, ∃ res, env.fetch (videoFetchUrl env.apiKey gv) = Except.ok res ∧
        res.ok = true) →
      ∃ xs, (generateVideo env prompt ratio image 1).result = some (Except.ok xs) ∧
        xs.length = (v :: vs).length ∧
        ∀ x ∈ xs, ∃ gv ∈ v :: vs, fetchOne env gv = Except.ok x) := by
  obtain ⟨hres_eq, hfetch_eq⟩ :=
    generateVideo_materialize env prompt ratio image op0 op n v vs hsub hpoll hresp
  refine ⟨hfetch_eq, ?_, ?_⟩
  · intro hall hany
    obtain ⟨gv0, hgv0mem, res0, hres0, hok0⟩ := hany
    have herr : ∃ e, Except.error e ∈ (v :: vs).map (fetchOne env) := by
      refine ⟨GenError.fetchFailed res0.status res0.statusText, ?_⟩
      have hfo : fetchOne env gv0 =
          Except.error (GenError.fetchFailed res0.status res0.statusText) := by
        rw [fetchOne, hres0]
        simp [hok0]
      rw [← hfo]
      exact List.mem_map_of_mem _ hgv0mem
    obtain ⟨e, hce, hmem⟩ := collectResults_has_error _ herr
    obtain ⟨gv, hgvmem, hfo⟩ := List.mem_map.mp hmem
    obtain ⟨res, hres⟩ := hall gv hgvmem
    rw [fetchOne, hres] at hfo
    by_cases hro : res.ok
    · simp [hro] at hfo
    · simp only [if_neg hro] at hfo
      refine ⟨gv, hgvmem, res, hres, by simpa using hro, ?_⟩
      rw [hres_eq, hce]
      cases hfo
      rfl
  · intro hall
    have hok : ∀ x ∈ (v :: vs).map (fetchOne env), ∃ p, x = Except.ok p := by
      intro x hx
      obtain ⟨gv, hgvmem, hfo⟩ := List.mem_map.mp hx
      obtain ⟨res, hres, hro⟩ := hall gv hgvmem
      refine ⟨bloblToBase64 res.blob, ?_⟩
      rw [← hfo, fetchOne, hres]
      simp [hro]
    obtain ⟨xs, hxs, hlen⟩ := collectResults_all_ok _ hok
    refine ⟨xs, ?_, ?_, ?_⟩
    · rw [hres_eq, hxs]
    · rw [hlen, List.length_map]
    · intro x hx
      have hmem := (collectResults_ok_mem _ xs hxs).2 x hx
      exact List.mem_map.mp hmem

/-- C6 witness: one generated video whose fetch is denied with HTTP 403
yields the fetch error carrying status 403. -/
theorem C6_witness :
    ∃ gv ∈ [gvU1], ∃ res,
      envFetch403.fetch (videoFetchUrl envFetch403.apiKey gv) = Except.ok res ∧
      res.ok = false ∧
      (generateVideo envFetch403 "p" AspectRatio.r16_9 none 1).result =
        some (Except.error (GenError.fetchFailed res.status res.statusText)) :=
  (C6_all_fetched_fetch_error_status envFetch403 "p" AspectRatio.r16_9 none
      (opReady [gvU1]) (opReady [gvU1]) 0 gvU1 [] (by decide) (by decide) rfl).2.1
    (fun gv hgv => ⟨resp403, rfl⟩)
    ⟨gvU1, by decide, resp403, rfl, rfl⟩

/-- C7 counterexample: with an empty prompt the pipeline performs no
validation at all — it submits the empty prompt and here even succeeds, so
building the request does not produce a validation error rather than a
submission. -/
theorem C7_counterexample :
    (generateVideo envDoneNow "" AspectRatio.r16_9 none 1).submitted.prompt = "" ∧
    (generateVideo envDoneNow "" AspectRatio.r16_9 none 1).result =
      some (Except.ok ["AAAA"]) := by
  exact ⟨by decide, by decide⟩

/-- C7 (amended): there is no validation error in the request builder; the
empty-prompt case is prevented only upstream — when the trimmed prompt is
empty the generate form's submit handler does nothing (no pipeline call and
no error), while `generateVideo` itself submits whatever prompt it is
given. -/
theorem C7_empty_prompt_blocked_upstream_only (prompt : String) (ratio : AspectRatio)
    (image : Option ImagePayload) (env : Env) (h : jsTrim prompt = "") :
    handleGenerate prompt ratio image = none ∧
    (generateVideo env prompt ratio image 1).submitted =
      submitParams prompt ratio image 1 := by
  constructor
  · rw [handleGenerate]
    simp [h]
  · exact generateVideo_submitted env prompt ratio image 1

/-- C7 witness: a whitespace-only prompt is blocked by the form handler and
would still be submitted verbatim by the pipeline if invoked directly. -/
theorem C7_witness :
    handleGenerate " " AspectRatio.r16_9 none = none ∧
    (generateVideo envDoneNow " " AspectRatio.r16_9 none 1).submitted =
      submitParams " " AspectRatio.r16_9 none 1 :=
  C7_empty_prompt_blocked_upstream_only " " AspectRatio.r16_9 none envDoneNow (by decide)

/-- C8: a built request carries the encoded image bytes and media type when
an image is supplied, and has no image field at all when none is supplied
(the conditional spread omits the key; no null or empty placeholder), and
the pipeline submits exactly the request built this way. -/
theorem C8_image_field_presence (prompt : String) (ratio : AspectRatio)
    (i : ImagePayload) (n : Nat) (env : Env) (image : Option ImagePayload) :
    (submitParams prompt ratio none n).image = none ∧
    (submitParams prompt ratio (some i) n).image =
      some { imageBytes := i.base64, mimeType := i.mimeType } ∧
    (generateVideo env prompt ratio image 1).submitted =
      submitParams prompt ratio image 1 :=
  ⟨rfl, rfl, generateVideo_submitted env prompt ratio image 1⟩

/-- C9: dismissing the error overlay clears it and leaves the gallery
sequence unchanged. -/
theorem C9_dismiss_error_overlay (s : AppState) (msgs : List String)
    (h : s.generationError = some msgs) :
    (errorModalOnClose s).generationError = none ∧
    (errorModalOnClose s).videos = s.videos :=
  ⟨rfl, rfl⟩

/-- C9 witness: dismissing the concrete error overlay state. -/
theorem C9_witness :
    (errorModalOnClose stErr).generationError = none ∧
    (errorModalOnClose stErr).videos = stErr.videos :=
  C9_dismiss_error_overlay stErr errorMessages (by decide)

/-- C10: a confirmed remix always resubmits with the fixed aspect ratio
16:9 and no reference image, using the original video's description as the
prompt; on success the new `Video` keeps the original's description and
takes the title `Remix of "<original title>"`, is prepended to the gallery
and opened in the player. -/
theorem C10_remix_fixed_params_and_fields (env : Env) (v : Video) (s : AppState)
    (b : String) (bs : List String)
    (h : (generateVideo env v.description AspectRatio.r16_9 none 1).result =
      some (Except.ok (b :: bs))) :
    (generateVideo env v.description AspectRatio.r16_9 none 1).submitted.config.aspectRatio =
      AspectRatio.r16_9 ∧
    (generateVideo env v.description AspectRatio.r16_9 none 1).submitted.image = none ∧
    (generateVideo env v.description AspectRatio.r16_9 none 1).submitted.prompt =
      v.description ∧
    ∃ s' nv, handleSaveEdit env v s = some s' ∧
      s'.videos = nv :: s.videos ∧
      nv.title = "Remix of \"" ++ v.title ++ "\"" ∧
      nv.description = v.description ∧
      s'.playingVideo = some nv := by
  have hsub := generateVideo_submitted env v.description AspectRatio.r16_9 none 1
  refine ⟨by rw [hsub]; rfl, by rw [hsub]; rfl, by rw [hsub]; rfl, ?_⟩
  rw [handleSaveEdit]
  simp only [h]
  exact ⟨_, _, rfl, rfl, rfl, rfl, rfl⟩

/-- C10 witness: remixing the concrete gallery entry `vid0`. -/
theorem C10_witness :
    (generateVideo envDoneNow vid0.description AspectRatio.r16_9 none 1).submitted.config.aspectRatio =
      AspectRatio.r16_9 ∧
    (generateVideo envDoneNow vid0.description AspectRatio.r16_9 none 1).submitted.image = none ∧
    (generateVideo envDoneNow vid0.description AspectRatio.r16_9 none 1).submitted.prompt =
      vid0.description ∧
    ∃ s' nv, handleSaveEdit envDoneNow vid0 st0 = some s' ∧
      s'.videos = nv :: st0.videos ∧
      nv.title = "Remix of \"" ++ vid0.title ++ "\"" ∧
      nv.description = vid0.description ∧
      s'.playingVideo = some nv :=
  C10_remix_fixed_params_and_fields envDoneNow vid0 st0 "AAAA" [] (by decide)

end Miraikun
